import Mathlib

/-!
Shallow embedding of the group-topic UI fragment:
* `TopicForm.tsx` — the create/edit topic form: constructor guard, validation,
  verification-token step, create/edit submission flows and their effects
  (remote write calls, toasts, navigation, cache mutation, the sending flag);
* `useGroupPost` — the SWR-backed thread data source (cache key and mutator);
* `GroupTopicHeader` — the memoized presentational header.

Effects (toasts, navigations, remote calls, mutations) are recorded in an
explicit effect state threaded through the handlers.  Asynchronous remote
calls are modelled as functions returning either a resolved response or a
rejection (a thrown error); a handler returns its final effect state together
with a flag recording whether an exception escaped it.
-/

namespace GroupUI

/-- Form data of the topic form: title, body text, and the
`cf-turnstile-response` verification-token field.  The same shape is the
payload passed to the remote write operations. -/
structure FormData where
  title : String
  text : String
  cfTurnstileResponse : String
  deriving DecidableEq, Repr

/-- Body of a remote write response: `data.id` (new topic id on success) and
`data.message` (human-readable error on failure). -/
structure RespData where
  id : Nat
  message : String
  deriving DecidableEq, Repr

/-- A resolved remote write response: a status code with its data. -/
structure ApiResponse where
  status : Nat
  data : RespData
  deriving DecidableEq, Repr

/-- Outcome of awaiting a remote write: the promise resolves with a response,
or rejects (the `await` re-throws). -/
inductive ApiOutcome where
  | resolve (r : ApiResponse)
  | reject (e : String)
  deriving DecidableEq, Repr

/-- The `TopicDetail` payload of an existing topic (from the client package).
It has no verification-token field: the token is never part of cached topic
state.  Fields beyond `id`, `title`, `text` stand for the remaining data of
the topic that an edit must leave unchanged. -/
structure TopicDetail where
  id : Nat
  title : String
  text : String
  createdAt : Nat
  creatorID : Nat
  deriving DecidableEq, Repr

/-- The `topic` prop of the form: the existing topic's current data.  The
`mutate` callback is modelled by recording, in the effect state, each value it
is invoked with. -/
structure TopicHandle where
  data : TopicDetail
  deriving DecidableEq, Repr

/-- Effect state threaded through the submission handlers.  Each list records
the arguments of the corresponding external call in order; `sending` is the
form's sending flag, `tokenField` the `cf-turnstile-response` form field
written by `setValue`. -/
structure EffState where
  sending : Bool
  tokenField : String
  createCalls : List (String × FormData)
  editCalls : List (Nat × FormData)
  toasts : List String
  navigations : List String
  mutations : List TopicDetail
  consoleErrors : List ApiResponse
  deriving DecidableEq, Repr

/-- The effect state before a submission starts. -/
def initState : EffState :=
  { sending := false, tokenField := "", createCalls := [], editCalls := []
    toasts := [], navigations := [], mutations := [], consoleErrors := [] }

/-- JavaScript truthiness of an optional string value: `undefined` and the
empty string are falsy, every other string is truthy.  Used for the
`if (token)` and `!!groupName` / `if (groupName)` checks of the source. -/
def jsTruthy : Option String → Bool
  | none => false
  | some s => !s.isEmpty

/-- The constructor guard of `TopicForm`: it throws
`Invalid usage: should specify either groupName or topic` when
`(!!groupName && !!topic) || (!groupName && !topic)` holds, before any form
inputs are rendered; otherwise the component body proceeds to render
(modelled by `.ok ()`). -/
def TopicForm (groupName : Option String) (topic : Option TopicHandle) :
    Except String Unit :=
  if (jsTruthy groupName && topic.isSome) || (!jsTruthy groupName && !topic.isSome) then
    .error "Invalid usage: should specify either groupName or topic"
  else
    .ok ()

/-- The `postNewTopic` helper: destructures title, text and the token from the
form data, calls `ozaClient.createNewGroupTopic(groupName, payload)`; on
status 200 navigates to the new topic's page, otherwise logs the response and
toasts `response.data.message`.  The second component is `true` when the
awaited call rejected (the exception escapes the helper). -/
def postNewTopic (data : FormData) (groupName : String)
    (createApi : String → FormData → ApiOutcome) (s : EffState) :
    EffState × Bool :=
  let payload : FormData :=
    { title := data.title, text := data.text
      cfTurnstileResponse := data.cfTurnstileResponse }
  let s := { s with createCalls := s.createCalls ++ [(groupName, payload)] }
  match createApi groupName payload with
  | .reject _ => (s, true)
  | .resolve response =>
    if response.status = 200 then
      ({ s with navigations :=
          s.navigations ++ ["/group/topic/" ++ Nat.repr response.data.id] }, false)
    else
      ({ s with consoleErrors := s.consoleErrors ++ [response]
                toasts := s.toasts ++ [response.data.message] }, false)

/-- The `editTopic` helper: destructures title, text and the token from the
form data, calls `ozaClient.editGroupTopic(id, payload)`; on status 200 it
invokes `topic.mutate({ ...topic.data, title, text })` — the token field is
excluded from the mutated data — and navigates to the topic's page, otherwise
it logs the response and toasts `response.data.message`. -/
def editTopic (data : FormData) (id : Nat) (topicData : TopicDetail)
    (editApi : Nat → FormData → ApiOutcome) (s : EffState) :
    EffState × Bool :=
  let payload : FormData :=
    { title := data.title, text := data.text
      cfTurnstileResponse := data.cfTurnstileResponse }
  let s := { s with editCalls := s.editCalls ++ [(id, payload)] }
  match editApi id payload with
  | .reject _ => (s, true)
  | .resolve response =>
    if response.status = 200 then
      ({ s with mutations := s.mutations ++
          [{ topicData with title := data.title, text := data.text }]
                navigations :=
          s.navigations ++ ["/group/topic/" ++ Nat.repr id] }, false)
    else
      ({ s with consoleErrors := s.consoleErrors ++ [response]
                toasts := s.toasts ++ [response.data.message] }, false)

/-- The `onSubmit` handler.  It sets the sending flag, awaits the verification
challenge (`execute`, modelled as resolving with `some token` or with no
token), and if the token is truthy stores it into the form's
`cf-turnstile-response` field via `setValue` and branches on the mode.  The
form-binding layer is external to the repository; per the spec the token is
stored into form state and the branch then reads title, body and token from
form state, so the data passed on carries the fresh token.  There is no
`try`/`finally` in the source: `setSending(false)` runs only when no awaited
call rejected. -/
def onSubmit (groupName : Option String) (topic : Option TopicHandle)
    (execute : Option String)
    (createApi : String → FormData → ApiOutcome)
    (editApi : Nat → FormData → ApiOutcome)
    (data : FormData) (s0 : EffState) : EffState × Bool :=
  let s := { s0 with sending := true }
  let token := execute
  if jsTruthy token then
    let t := token.getD ""
    let s := { s with tokenField := t }
    let data := { data with cfTurnstileResponse := t }
    if jsTruthy groupName then
      let r := postNewTopic data (groupName.getD "") createApi s
      if r.2 then (r.1, true) else ({ r.1 with sending := false }, false)
    else
      match topic with
      | some tp =>
        let r := editTopic data tp.data.id tp.data editApi s
        if r.2 then (r.1, true) else ({ r.1 with sending := false }, false)
      | none => ({ s with sending := false }, false)
  else
    ({ s with sending := false }, false)

/-- Modelled from the spec: the form library's required-field validation (the
library itself is an external collaborator; only the rules and messages are in
the source).  `required` fails on an empty field; fields are checked in
registration order — title (`请填写标题`) before body (`请填写正文内容`) —
and the messages of the failing fields are collected in that order. -/
def validateErrors (data : FormData) : List String :=
  (if data.title = "" then ["请填写标题"] else []) ++
  (if data.text = "" then ["请填写正文内容"] else [])

/-- The `showErrors` handler: toasts the first validation error message,
`Object.values(errors).map((field) => field.message)[0]!`. -/
def showErrors (errors : List String) (s : EffState) : EffState :=
  { s with toasts := s.toasts ++ [errors.headD ""] }

/-- The full submission pipeline `handleSubmit(onSubmit, showErrors)`: when
validation finds no error the validated data is handed to `onSubmit`,
otherwise `showErrors` runs and no submission happens. -/
def handleSubmitFlow (groupName : Option String) (topic : Option TopicHandle)
    (execute : Option String)
    (createApi : String → FormData → ApiOutcome)
    (editApi : Nat → FormData → ApiOutcome)
    (data : FormData) (s0 : EffState) : EffState × Bool :=
  let errs := validateErrors data
  if errs.isEmpty then
    onSubmit groupName topic execute createApi editApi data s0
  else
    (showErrors errs s0, false)

end GroupUI

namespace GroupUI

/-- Decimal value of a digit character, inverse of `Nat.digitChar` on `0`–`9`. -/
def digitVal (c : Char) : Nat :=
  if c = '0' then 0 else if c = '1' then 1 else if c = '2' then 2 else
  if c = '3' then 3 else if c = '4' then 4 else if c = '5' then 5 else
  if c = '6' then 6 else if c = '7' then 7 else if c = '8' then 8 else
  if c = '9' then 9 else 0

/-- Value of a decimal digit string, most significant digit first. -/
def evalDigits (l : List Char) : Nat :=
  l.foldl (fun a c => a * 10 + digitVal c) 0

theorem digitVal_digitChar (m : Nat) (h : m < 10) :
    digitVal (Nat.digitChar m) = m := by
  interval_cases m <;> rfl

theorem toDigitsCore_append (b : Nat) :
    ∀ (fuel n : Nat) (ds : List Char),
      Nat.toDigitsCore b fuel n ds = Nat.toDigitsCore b fuel n [] ++ ds
  | 0, _, _ => rfl
  | fuel+1, n, ds => by
    simp only [Nat.toDigitsCore]
    by_cases h : n / b = 0
    · simp [h]
    · rw [if_neg h, if_neg h,
        toDigitsCore_append b fuel (n / b) (Nat.digitChar (n % b) :: ds),
        toDigitsCore_append b fuel (n / b) [Nat.digitChar (n % b)],
        List.append_assoc, List.cons_append, List.nil_append]

theorem evalDigits_append_singleton (l : List Char) (c : Char) :
    evalDigits (l ++ [c]) = evalDigits l * 10 + digitVal c := by
  simp [evalDigits, List.foldl_append]

theorem evalDigits_toDigitsCore :
    ∀ (fuel n : Nat), n < fuel →
      evalDigits (Nat.toDigitsCore 10 fuel n []) = n
  | 0, n, h => absurd h (Nat.not_lt_zero n)
  | fuel+1, n, h => by
    simp only [Nat.toDigitsCore]
    by_cases h0 : n / 10 = 0
    · have hdv := digitVal_digitChar (n % 10) (Nat.mod_lt n (by omega))
      have hn : n % 10 = n := by
        have := Nat.div_add_mod n 10
        omega
      rw [if_pos h0]
      simp only [evalDigits, List.foldl_cons, List.foldl_nil, Nat.zero_mul,
        Nat.zero_add]
      rw [hdv]
      exact hn
    · rw [if_neg h0,
        toDigitsCore_append 10 fuel (n / 10) [Nat.digitChar (n % 10)],
        evalDigits_append_singleton,
        evalDigits_toDigitsCore fuel (n / 10)
          (by
            have h1 : n / 10 < n := Nat.div_lt_self (by omega) (by omega)
            omega),
        digitVal_digitChar (n % 10) (Nat.mod_lt n (by omega))]
      have := Nat.div_add_mod n 10
      omega

theorem reprData_inj {a b : Nat}
    (h : (Nat.repr a).data = (Nat.repr b).data) : a = b := by
  have ha : (Nat.repr a).data = Nat.toDigits 10 a := rfl
  have hb : (Nat.repr b).data = Nat.toDigits 10 b := rfl
  rw [ha, hb] at h
  have := congrArg evalDigits h
  rwa [show Nat.toDigits 10 a = Nat.toDigitsCore 10 (a+1) a [] from rfl,
    show Nat.toDigits 10 b = Nat.toDigitsCore 10 (b+1) b [] from rfl,
    evalDigits_toDigitsCore (a+1) a (Nat.lt_succ_self a),
    evalDigits_toDigitsCore (b+1) b (Nat.lt_succ_self b)] at this

/-- The payload of a group post, `ozaClient.Reply` (external client type,
only its identity matters for the cache claims). -/
structure Reply where
  id : Nat
  text : String
  deriving DecidableEq, Repr

/-- Modelled from the spec: the keyed cache behind the SWR hook (the SWR
library is external; §4.1 gives its contract: the read is strictly bound to
the key, and the mutator injects a new value for the key without a network
round trip).  A cache maps string keys to cached values. -/
def SWRCache (α : Type) := String → Option α

/-- Modelled from the spec: the mutator returned by the hook overrides the
cache entry of its key with the supplied value, touching no other key. -/
def swrMutate {α : Type} (c : SWRCache α) (key : String) (v : α) :
    SWRCache α :=
  fun k => if k = key then some v else c k

/-- Modelled from the spec: a read returns the cached value for the key when
one is present, without a network call; only on a cache miss does it invoke
the fetcher (a network call, recorded by the second component). -/
def swrRead {α : Type} (c : SWRCache α) (key : String) (fetcher : Unit → α) :
    α × Bool :=
  match c key with
  | some v => (v, false)
  | none => (fetcher (), true)

/-- The cache key used by `useGroupPost` for a post id (template literal
/group/post/id from the source). -/
def groupPostKey (id : Nat) : String :=
  "/group/post/" ++ Nat.repr id

/-- The `useGroupPost` hook: an SWR read keyed by `groupPostKey id`, fetching
`ok(ozaClient.getGroupPost(id))` on a miss. -/
def useGroupPost (id : Nat) (c : SWRCache Reply) (getGroupPost : Nat → Reply) :
    Reply × Bool :=
  swrRead c (groupPostKey id) (fun _ => getGroupPost id)

/-- The mutator returned by `useGroupPost`: bound to the hook's own key. -/
def useGroupPostMutate (id : Nat) (c : SWRCache Reply) (v : Reply) :
    SWRCache Reply :=
  swrMutate c (groupPostKey id) v

end GroupUI

namespace GroupUI

/-- Avatar URLs of a user (only the large variant is used by the header). -/
structure Avatar where
  large : String
  deriving DecidableEq, Repr

/-- The `SlimUser` shape consumed by the header (external client type). -/
structure SlimUser where
  username : String
  nickname : String
  avatar : Avatar
  deriving DecidableEq, Repr

/-- The `SlimGroup` shape consumed by the header (external client type). -/
structure SlimGroup where
  name : String
  title : String
  deriving DecidableEq, Repr

/-- The props of `GroupTopicHeader`: title, creation timestamp, creator,
parent group, and topic id. -/
structure Header where
  title : String
  createdAt : Nat
  creator : SlimUser
  parent : SlimGroup
  id : Nat
  deriving DecidableEq, Repr

/-- Props passed to the `CommentInfo` element inside the header. -/
structure CommentInfoProps where
  createdAt : Nat
  floor : String
  id : Nat
  deriving DecidableEq, Repr

/-- The rendered output of the header: avatar source, the three link targets
with their texts, the comment-info element, and the heading text. -/
structure HeaderView where
  avatarSrc : String
  creatorLink : String
  creatorLabel : String
  groupLink : String
  groupLabel : String
  forumLink : String
  forumLabel : String
  commentInfo : CommentInfoProps
  heading : String
  deriving DecidableEq, Repr

/-- Modelled from the spec: `getUserProfileLink` from the utils package (not
under src/).  The spec says only that the creator link targets the creator's
profile page and is a pure function of the inputs; it is modelled as a pure
function of the username. -/
def getUserProfileLink (username : String) : String :=
  "/user/" ++ username

/-- The render function of `GroupTopicHeader`: a pure function from the props
to the rendered view.  Link targets: the creator's profile via
`getUserProfileLink(creator.username)`, the parent group's index at
/group/name, and its forum at /group/name/forum; the comment info carries the
creation timestamp, the constant floor string 1, and the topic id. -/
def GroupTopicHeader (p : Header) : HeaderView :=
  { avatarSrc := p.creator.avatar.large
    creatorLink := getUserProfileLink p.creator.username
    creatorLabel := p.creator.nickname
    groupLink := "/group/" ++ p.parent.name
    groupLabel := p.parent.title
    forumLink := "/group/" ++ p.parent.name ++ "/forum"
    forumLabel := "组内讨论"
    commentInfo := { createdAt := p.createdAt, floor := "1", id := p.id }
    heading := p.title }

/-- Modelled from the spec: `React.memo` with the default shallow props
comparison.  When the previously rendered props equal the current ones the
cached output is reused instead of re-rendering; otherwise the wrapped render
function runs. -/
def memoRender (f : Header → HeaderView)
    (prev : Option (Header × HeaderView)) (p : Header) : HeaderView :=
  match prev with
  | some (q, v) => if q = p then v else f p
  | none => f p

/-- The exported component is `memo(GroupTopicHeader)`. -/
def GroupTopicHeaderMemo (prev : Option (Header × HeaderView)) (p : Header) :
    HeaderView :=
  memoRender GroupTopicHeader prev p

end GroupUI

namespace GroupUI

/-- C10: for every input, the rendered topic header passes the constant floor
value 1 to its comment-info element, regardless of any of its inputs. -/
theorem header_floor_constant (p : Header) :
    (GroupTopicHeader p).commentInfo.floor = "1" := rfl

/-- C4 counterexample: the claim says that when exactly one of the container
reference and the topic handle is supplied no configuration error is thrown,
but supplying the empty string as `groupName` (and no topic) is exactly one
supplied argument and the guard still throws, because the source tests
`!!groupName`, which is false for the empty string. -/
theorem topicForm_guard_cex :
    TopicForm (some "") none =
      .error "Invalid usage: should specify either groupName or topic" := rfl

/-- C4 amended: with presence measured by JavaScript truthiness (an
empty-string container reference counts as not supplied), the form throws the
configuration error before rendering any inputs precisely when both arguments
are present or neither is, and renders otherwise. -/
theorem topicForm_guard_iff (g : Option String) (t : Option TopicHandle) :
    TopicForm g t = .error "Invalid usage: should specify either groupName or topic" ↔
      ((jsTruthy g = true ∧ t.isSome = true) ∨
        (jsTruthy g = false ∧ t.isSome = false)) := by
  by_cases hg : jsTruthy g = true <;> by_cases ht : t.isSome = true <;>
    simp [TopicForm, hg, ht]

/-- C2: in create mode, a response with status 200 produces exactly the
navigation to /group/topic/id of the response data and no toast, while any
other status produces exactly one toast with the server-supplied message and
no navigation. -/
theorem create_response_handling (data : FormData) (g : String)
    (resp : ApiResponse) :
    (postNewTopic data g (fun _ _ => .resolve resp) initState).1.navigations =
        (if resp.status = 200 then ["/group/topic/" ++ Nat.repr resp.data.id]
          else []) ∧
      (postNewTopic data g (fun _ _ => .resolve resp) initState).1.toasts =
        (if resp.status = 200 then [] else [resp.data.message]) := by
  by_cases h : resp.status = 200 <;> simp [postNewTopic, initState, h]

/-- C3: in edit mode, a response with status 200 invokes the mutator exactly
once, with the existing topic data in which only title and text are replaced
by the submitted values (the mutated value has no token field and all other
fields are unchanged), and navigates to /group/topic/id; any other status
invokes no mutator and performs no navigation. -/
theorem edit_response_handling (data : FormData) (td : TopicDetail)
    (resp : ApiResponse) :
    (editTopic data td.id td (fun _ _ => .resolve resp) initState).1.mutations =
        (if resp.status = 200 then
          [{ td with title := data.title, text := data.text }] else []) ∧
      (editTopic data td.id td (fun _ _ => .resolve resp) initState).1.navigations =
        (if resp.status = 200 then ["/group/topic/" ++ Nat.repr td.id]
          else []) := by
  by_cases h : resp.status = 200 <;> simp [editTopic, initState, h]

end GroupUI

namespace GroupUI

theorem jsTruthy_some {t : String} (ht : t ≠ "") : jsTruthy (some t) = true := by
  have h : t.isEmpty = false := by
    cases h : t.isEmpty
    · rfl
    · exact absurd ((String.isEmpty_iff t).1 h) ht
  simp [jsTruthy, h]

theorem postNewTopic_fst_createCalls (data : FormData) (g : String)
    (api : String → FormData → ApiOutcome) (s : EffState) :
    (postNewTopic data g api s).1.createCalls =
      s.createCalls ++
        [(g, { title := data.title, text := data.text
               cfTurnstileResponse := data.cfTurnstileResponse })] := by
  simp only [postNewTopic]
  split
  · rfl
  · split <;> rfl

theorem postNewTopic_fst_sending (data : FormData) (g : String)
    (api : String → FormData → ApiOutcome) (s : EffState) :
    (postNewTopic data g api s).1.sending = s.sending := by
  simp only [postNewTopic]
  split
  · rfl
  · split <;> rfl

theorem postNewTopic_resolve_snd (data : FormData) (g : String)
    (api : String → FormData → ApiResponse) (s : EffState) :
    (postNewTopic data g (fun a b => .resolve (api a b)) s).2 = false := by
  simp only [postNewTopic]
  split <;> rfl

theorem editTopic_fst_editCalls (data : FormData) (id : Nat)
    (td : TopicDetail) (api : Nat → FormData → ApiOutcome) (s : EffState) :
    (editTopic data id td api s).1.editCalls =
      s.editCalls ++
        [(id, { title := data.title, text := data.text
                cfTurnstileResponse := data.cfTurnstileResponse })] := by
  simp only [editTopic]
  split
  · rfl
  · split <;> rfl

theorem editTopic_fst_sending (data : FormData) (id : Nat)
    (td : TopicDetail) (api : Nat → FormData → ApiOutcome) (s : EffState) :
    (editTopic data id td api s).1.sending = s.sending := by
  simp only [editTopic]
  split
  · rfl
  · split <;> rfl

theorem editTopic_resolve_snd (data : FormData) (id : Nat)
    (td : TopicDetail) (api : Nat → FormData → ApiResponse) (s : EffState) :
    (editTopic data id td (fun a b => .resolve (api a b)) s).2 = false := by
  simp only [editTopic]
  split <;> rfl

/-- C1: whenever the verification challenge resolves to a (truthy) token, the
remote write operation then invoked — the create call in create mode, the
edit call in edit mode — receives exactly that fresh token as its
cf-turnstile-response argument, together with the title and body from form
state. -/
theorem submit_passes_fresh_token (data : FormData) (t g : String)
    (td : TopicDetail)
    (createApi : String → FormData → ApiOutcome)
    (editApi : Nat → FormData → ApiOutcome)
    (ht : t ≠ "") (hg : g ≠ "") :
    ((onSubmit (some g) none (some t) createApi editApi data
        initState).1.createCalls =
      [(g, { title := data.title, text := data.text
             cfTurnstileResponse := t })]) ∧
    ((onSubmit none (some ⟨td⟩) (some t) createApi editApi data
        initState).1.editCalls =
      [(td.id, { title := data.title, text := data.text
                 cfTurnstileResponse := t })]) := by
  have hT := jsTruthy_some ht
  have hG := jsTruthy_some hg
  constructor
  · simp only [onSubmit, hT, hG, if_true, Option.getD_some]
    split
    · rw [postNewTopic_fst_createCalls]
      rfl
    · rw [postNewTopic_fst_createCalls]
      rfl
  · have hN : jsTruthy none = false := rfl
    simp only [onSubmit, hT, hN, if_true, Bool.false_eq_true, if_false,
      Option.getD_some]
    split <;> (rw [editTopic_fst_editCalls]; rfl)

/-- C1 witness: the create call and the edit call receive the freshly
obtained token tok together with the submitted title and body. -/
theorem submit_passes_fresh_token_witness :
    (("tok" : String) ≠ "") ∧ (("life" : String) ≠ "") ∧
    ((onSubmit (some "life") none (some "tok")
        (fun _ _ => .resolve ⟨200, ⟨42, ""⟩⟩)
        (fun _ _ => .resolve ⟨200, ⟨42, ""⟩⟩)
        ⟨"hello", "world", ""⟩ initState).1.createCalls =
      [("life", ⟨"hello", "world", "tok"⟩)]) ∧
    ((onSubmit none (some ⟨⟨7, "old", "old body", 3, 9⟩⟩) (some "tok")
        (fun _ _ => .resolve ⟨200, ⟨42, ""⟩⟩)
        (fun _ _ => .resolve ⟨200, ⟨42, ""⟩⟩)
        ⟨"hello", "world", ""⟩ initState).1.editCalls =
      [(7, ⟨"hello", "world", "tok"⟩)]) :=
  ⟨by decide, by decide,
    (submit_passes_fresh_token ⟨"hello", "world", ""⟩ "tok" "life"
      ⟨7, "old", "old body", 3, 9⟩ (fun _ _ => .resolve ⟨200, ⟨42, ""⟩⟩)
      (fun _ _ => .resolve ⟨200, ⟨42, ""⟩⟩) (by decide) (by decide)).1,
    (submit_passes_fresh_token ⟨"hello", "world", ""⟩ "tok" "life"
      ⟨7, "old", "old body", 3, 9⟩ (fun _ _ => .resolve ⟨200, ⟨42, ""⟩⟩)
      (fun _ _ => .resolve ⟨200, ⟨42, ""⟩⟩) (by decide) (by decide)).2⟩

end GroupUI

namespace GroupUI

/-- C7: when the verification challenge resolves without yielding a (truthy)
token, no remote write is called, no toast is shown, no navigation happens,
no exception escapes, and the sending flag ends cleared. -/
theorem no_token_silent_abort (gn : Option String) (tp : Option TopicHandle)
    (execute : Option String)
    (createApi : String → FormData → ApiOutcome)
    (editApi : Nat → FormData → ApiOutcome)
    (data : FormData) (h : jsTruthy execute = false) :
    ((onSubmit gn tp execute createApi editApi data initState).1.sending
      = false) ∧
    ((onSubmit gn tp execute createApi editApi data initState).1.createCalls
      = []) ∧
    ((onSubmit gn tp execute createApi editApi data initState).1.editCalls
      = []) ∧
    ((onSubmit gn tp execute createApi editApi data initState).1.toasts
      = []) ∧
    ((onSubmit gn tp execute createApi editApi data initState).1.navigations
      = []) ∧
    ((onSubmit gn tp execute createApi editApi data initState).2 = false) := by
  simp [onSubmit, h, initState]

/-- C7 witness: with no token resolved, the concrete submission performs no
write call, shows nothing, and clears the sending flag. -/
theorem no_token_silent_abort_witness :
    jsTruthy none = false ∧
    (((onSubmit (some "life") none none
        (fun _ _ => .resolve ⟨200, ⟨1, ""⟩⟩)
        (fun _ _ => .resolve ⟨200, ⟨1, ""⟩⟩)
        ⟨"hello", "world", ""⟩ initState).1.sending = false) ∧
    ((onSubmit (some "life") none none
        (fun _ _ => .resolve ⟨200, ⟨1, ""⟩⟩)
        (fun _ _ => .resolve ⟨200, ⟨1, ""⟩⟩)
        ⟨"hello", "world", ""⟩ initState).1.createCalls = []) ∧
    ((onSubmit (some "life") none none
        (fun _ _ => .resolve ⟨200, ⟨1, ""⟩⟩)
        (fun _ _ => .resolve ⟨200, ⟨1, ""⟩⟩)
        ⟨"hello", "world", ""⟩ initState).1.editCalls = []) ∧
    ((onSubmit (some "life") none none
        (fun _ _ => .resolve ⟨200, ⟨1, ""⟩⟩)
        (fun _ _ => .resolve ⟨200, ⟨1, ""⟩⟩)
        ⟨"hello", "world", ""⟩ initState).1.toasts = []) ∧
    ((onSubmit (some "life") none none
        (fun _ _ => .resolve ⟨200, ⟨1, ""⟩⟩)
        (fun _ _ => .resolve ⟨200, ⟨1, ""⟩⟩)
        ⟨"hello", "world", ""⟩ initState).1.navigations = []) ∧
    ((onSubmit (some "life") none none
        (fun _ _ => .resolve ⟨200, ⟨1, ""⟩⟩)
        (fun _ _ => .resolve ⟨200, ⟨1, ""⟩⟩)
        ⟨"hello", "world", ""⟩ initState).2 = false)) :=
  ⟨rfl, no_token_silent_abort (some "life") none none
    (fun _ _ => .resolve ⟨200, ⟨1, ""⟩⟩)
    (fun _ _ => .resolve ⟨200, ⟨1, ""⟩⟩)
    ⟨"hello", "world", ""⟩ rfl⟩

/-- C6 counterexample: the claim says the sending flag is cleared even when
the write operation throws, but the handler has no try/finally: with a
rejecting create call the handler exits by exception with the flag still
set. -/
theorem sending_flag_cex :
    ((onSubmit (some "life") none (some "tok")
        (fun _ _ => .reject "network error")
        (fun _ _ => .reject "network error")
        ⟨"hello", "world", ""⟩ initState).1.sending = true) ∧
    ((onSubmit (some "life") none (some "tok")
        (fun _ _ => .reject "network error")
        (fun _ _ => .reject "network error")
        ⟨"hello", "world", ""⟩ initState).2 = true) :=
  ⟨rfl, rfl⟩

/-- C6 amended: in every run of the handler in which the awaited write
operations resolve (no exception) — token obtained or not, write succeeded or
server-rejected — the sending flag is cleared by the end of the handler and no
exception escapes; when a write rejects, the flag stays set. -/
theorem sending_flag_cleared_no_throw (gn : Option String)
    (tp : Option TopicHandle) (execute : Option String)
    (createApi : String → FormData → ApiResponse)
    (editApi : Nat → FormData → ApiResponse) (data : FormData) :
    ((onSubmit gn tp execute (fun a b => .resolve (createApi a b))
        (fun a b => .resolve (editApi a b)) data initState).1.sending
      = false) ∧
    ((onSubmit gn tp execute (fun a b => .resolve (createApi a b))
        (fun a b => .resolve (editApi a b)) data initState).2 = false) := by
  by_cases hex : jsTruthy execute = true
  · by_cases hgn : jsTruthy gn = true
    · simp [onSubmit, hex, hgn, postNewTopic_resolve_snd]
    · have hgn2 : jsTruthy gn = false := by
        cases h : jsTruthy gn
        · rfl
        · exact absurd h hgn
      cases tp with
      | some tph => simp [onSubmit, hex, hgn2, editTopic_resolve_snd]
      | none => simp [onSubmit, hex, hgn2]
  · have hex2 : jsTruthy execute = false := by
      cases h : jsTruthy execute
      · rfl
      · exact absurd h hex
    simp [onSubmit, hex2]

end GroupUI

namespace GroupUI

/-- C5: a submission with a missing required field makes no remote write call
and shows the first validation error message: an empty title toasts 请填写标题
(this message is first also when the body is empty as well), and an empty
body with a non-empty title toasts 请填写正文内容. -/
theorem validation_blocks_submission (gn : Option String)
    (tp : Option TopicHandle) (execute : Option String)
    (createApi : String → FormData → ApiOutcome)
    (editApi : Nat → FormData → ApiOutcome) (data : FormData) :
    (data.title = "" →
      ((handleSubmitFlow gn tp execute createApi editApi data
          initState).1.toasts = ["请填写标题"]) ∧
      ((handleSubmitFlow gn tp execute createApi editApi data
          initState).1.createCalls = []) ∧
      ((handleSubmitFlow gn tp execute createApi editApi data
          initState).1.editCalls = [])) ∧
    (data.title ≠ "" → data.text = "" →
      ((handleSubmitFlow gn tp execute createApi editApi data
          initState).1.toasts = ["请填写正文内容"]) ∧
      ((handleSubmitFlow gn tp execute createApi editApi data
          initState).1.createCalls = []) ∧
      ((handleSubmitFlow gn tp execute createApi editApi data
          initState).1.editCalls = [])) := by
  constructor
  · intro h1
    have he : validateErrors data =
        "请填写标题" :: (if data.text = "" then ["请填写正文内容"] else []) := by
      simp [validateErrors, h1]
    simp [handleSubmitFlow, he, showErrors, initState]
  · intro h1 h2
    have he : validateErrors data = ["请填写正文内容"] := by
      simp [validateErrors, h1, h2]
    simp [handleSubmitFlow, he, showErrors, initState]

/-- C5 witness: an empty title toasts 请填写标题 and an empty body with a
non-empty title toasts 请填写正文内容, with zero write calls in both runs. -/
theorem validation_blocks_submission_witness :
    (((handleSubmitFlow (some "life") none (some "tok")
        (fun _ _ => .resolve ⟨200, ⟨1, ""⟩⟩)
        (fun _ _ => .resolve ⟨200, ⟨1, ""⟩⟩)
        ⟨"", "world", ""⟩ initState).1.toasts = ["请填写标题"]) ∧
      ((handleSubmitFlow (some "life") none (some "tok")
        (fun _ _ => .resolve ⟨200, ⟨1, ""⟩⟩)
        (fun _ _ => .resolve ⟨200, ⟨1, ""⟩⟩)
        ⟨"", "world", ""⟩ initState).1.createCalls = []) ∧
      ((handleSubmitFlow (some "life") none (some "tok")
        (fun _ _ => .resolve ⟨200, ⟨1, ""⟩⟩)
        (fun _ _ => .resolve ⟨200, ⟨1, ""⟩⟩)
        ⟨"", "world", ""⟩ initState).1.editCalls = [])) ∧
    (((handleSubmitFlow (some "life") none (some "tok")
        (fun _ _ => .resolve ⟨200, ⟨1, ""⟩⟩)
        (fun _ _ => .resolve ⟨200, ⟨1, ""⟩⟩)
        ⟨"hello", "", ""⟩ initState).1.toasts = ["请填写正文内容"]) ∧
      ((handleSubmitFlow (some "life") none (some "tok")
        (fun _ _ => .resolve ⟨200, ⟨1, ""⟩⟩)
        (fun _ _ => .resolve ⟨200, ⟨1, ""⟩⟩)
        ⟨"hello", "", ""⟩ initState).1.createCalls = []) ∧
      ((handleSubmitFlow (some "life") none (some "tok")
        (fun _ _ => .resolve ⟨200, ⟨1, ""⟩⟩)
        (fun _ _ => .resolve ⟨200, ⟨1, ""⟩⟩)
        ⟨"hello", "", ""⟩ initState).1.editCalls = [])) :=
  ⟨(validation_blocks_submission (some "life") none (some "tok")
      (fun _ _ => .resolve ⟨200, ⟨1, ""⟩⟩)
      (fun _ _ => .resolve ⟨200, ⟨1, ""⟩⟩)
      ⟨"", "world", ""⟩).1 rfl,
    (validation_blocks_submission (some "life") none (some "tok")
      (fun _ _ => .resolve ⟨200, ⟨1, ""⟩⟩)
      (fun _ _ => .resolve ⟨200, ⟨1, ""⟩⟩)
      ⟨"hello", "", ""⟩).2 (by decide) rfl⟩

end GroupUI

namespace GroupUI

/-- C8: the data source's cache is strictly keyed by the thread identifier —
distinct identifiers yield distinct cache keys — and after calling the
mutator with a new value, a read for that identifier observes the new value
without issuing a network call. -/
theorem groupPost_cache_keying (id1 id2 : Nat) (h : id1 ≠ id2)
    (c : SWRCache Reply) (v : Reply) (fetch : Nat → Reply) (id : Nat) :
    groupPostKey id1 ≠ groupPostKey id2 ∧
      useGroupPost id (useGroupPostMutate id c v) fetch = (v, false) := by
  constructor
  · intro he
    apply h
    apply reprData_inj
    have hd := congrArg String.data he
    rw [groupPostKey, groupPostKey, String.data_append, String.data_append]
      at hd
    exact List.append_cancel_left hd
  · simp [useGroupPost, useGroupPostMutate, swrRead, swrMutate]

/-- C8 witness: the keys of ids 1 and 2 differ, and after mutating id 5 the
read for id 5 returns the injected value with no network call. -/
theorem groupPost_cache_keying_witness :
    (1 : Nat) ≠ 2 ∧
    (groupPostKey 1 ≠ groupPostKey 2 ∧
      useGroupPost 5 (useGroupPostMutate 5 (fun _ => none) ⟨9, "post"⟩)
        (fun n => ⟨n, "fetched"⟩) = (⟨9, "post"⟩, false)) :=
  ⟨by decide, groupPost_cache_keying 1 2 (by decide) (fun _ => none)
    ⟨9, "post"⟩ (fun n => ⟨n, "fetched"⟩) 5⟩

/-- C9: the header render is a deterministic pure function of its five
inputs: the memoized component returns the same view as a fresh render both
on a cache hit (where the previously rendered view is reused, sound by
determinism) and on a miss, and every link target it renders is a pure
function of the inputs — the creator link is the profile link of the
creator's username and the two parent-container links are built from the
parent's name. -/
theorem header_pure_memo (q p : Header) (v : HeaderView)
    (hv : v = GroupTopicHeader q) :
    GroupTopicHeaderMemo (some (q, v)) p = GroupTopicHeader p ∧
    GroupTopicHeaderMemo none p = GroupTopicHeader p ∧
    (GroupTopicHeader p).creatorLink = getUserProfileLink p.creator.username ∧
    (GroupTopicHeader p).groupLink = "/group/" ++ p.parent.name ∧
    (GroupTopicHeader p).forumLink = "/group/" ++ p.parent.name ++ "/forum" := by
  refine ⟨?_, rfl, rfl, rfl, rfl⟩
  by_cases hq : q = p
  · simp [GroupTopicHeaderMemo, memoRender, hq, hv]
  · simp [GroupTopicHeaderMemo, memoRender, hq]

/-- C9 witness: with a concrete previously rendered view, the memoized header
reuses it and agrees with a fresh render, and the concrete link targets are
the pure functions of the inputs. -/
theorem header_pure_memo_witness :
    (GroupTopicHeaderMemo
        (some (⟨"hello", 1, ⟨"u", "n", ⟨"a"⟩⟩, ⟨"life", "Life"⟩, 7⟩,
          GroupTopicHeader ⟨"hello", 1, ⟨"u", "n", ⟨"a"⟩⟩, ⟨"life", "Life"⟩, 7⟩))
        ⟨"hello", 1, ⟨"u", "n", ⟨"a"⟩⟩, ⟨"life", "Life"⟩, 7⟩ =
      GroupTopicHeader ⟨"hello", 1, ⟨"u", "n", ⟨"a"⟩⟩, ⟨"life", "Life"⟩, 7⟩) ∧
    (GroupTopicHeaderMemo none
        ⟨"hello", 1, ⟨"u", "n", ⟨"a"⟩⟩, ⟨"life", "Life"⟩, 7⟩ =
      GroupTopicHeader ⟨"hello", 1, ⟨"u", "n", ⟨"a"⟩⟩, ⟨"life", "Life"⟩, 7⟩) ∧
    ((GroupTopicHeader
        ⟨"hello", 1, ⟨"u", "n", ⟨"a"⟩⟩, ⟨"life", "Life"⟩, 7⟩).creatorLink =
      getUserProfileLink "u") ∧
    ((GroupTopicHeader
        ⟨"hello", 1, ⟨"u", "n", ⟨"a"⟩⟩, ⟨"life", "Life"⟩, 7⟩).groupLink =
      "/group/" ++ "life") ∧
    ((GroupTopicHeader
        ⟨"hello", 1, ⟨"u", "n", ⟨"a"⟩⟩, ⟨"life", "Life"⟩, 7⟩).forumLink =
      "/group/" ++ "life" ++ "/forum") :=
  header_pure_memo ⟨"hello", 1, ⟨"u", "n", ⟨"a"⟩⟩, ⟨"life", "Life"⟩, 7⟩
    ⟨"hello", 1, ⟨"u", "n", ⟨"a"⟩⟩, ⟨"life", "Life"⟩, 7⟩
    (GroupTopicHeader ⟨"hello", 1, ⟨"u", "n", ⟨"a"⟩⟩, ⟨"life", "Life"⟩, 7⟩)
    rfl

end GroupUI
